import Mathlib

/-!
# Verification of the ALERTA-POA synergistic risk-scoring engine

Shallow embedding of the risk-scoring core of the ALERTA-POA repository:
* `modules/security_analysis.py` — `calculate_risk_score` (trend logic) and
  `calculate_synergistic_security_analysis` (aggregation, score, classification,
  effectiveness, recommendations);
* `modules/mapping_utils.py` — `map_bairro_name` (neighborhood-name normalization).

Numbers are modelled with `ℕ`/`ℤ`/`ℚ` (Python ints and floats on these inputs are
exact), Python strings with Lean `String`, and pandas dataframes with lists of
records.  Rounding performed by the source purely for display
(`round(score_final, 2)` and the `int(...)` casts in the result dict) is not
modelled; all claims concern the exact values.
-/

namespace AlertaPOA

/-! ## Python string primitives: `str.upper` and `str.strip`

`pyUpperChar` models Python `str.upper` character-wise, restricted to the
characters relevant to this repository (ASCII letters and the Portuguese
accented letters appearing in the neighborhood tables). -/

def upperTable : List (Char × Char) :=
  [('a', 'A'), ('b', 'B'), ('c', 'C'), ('d', 'D'), ('e', 'E'), ('f', 'F'),
   ('g', 'G'), ('h', 'H'), ('i', 'I'), ('j', 'J'), ('k', 'K'), ('l', 'L'),
   ('m', 'M'), ('n', 'N'), ('o', 'O'), ('p', 'P'), ('q', 'Q'), ('r', 'R'),
   ('s', 'S'), ('t', 'T'), ('u', 'U'), ('v', 'V'), ('w', 'W'), ('x', 'X'),
   ('y', 'Y'), ('z', 'Z'),
   ('á', 'Á'), ('à', 'À'), ('â', 'Â'), ('ã', 'Ã'), ('ä', 'Ä'),
   ('ç', 'Ç'), ('é', 'É'), ('è', 'È'), ('ê', 'Ê'), ('ë', 'Ë'),
   ('í', 'Í'), ('ì', 'Ì'), ('î', 'Î'), ('ï', 'Ï'),
   ('ó', 'Ó'), ('ò', 'Ò'), ('ô', 'Ô'), ('õ', 'Õ'), ('ö', 'Ö'),
   ('ú', 'Ú'), ('ù', 'Ù'), ('û', 'Û'), ('ü', 'Ü'), ('ñ', 'Ñ')]

def pyUpperChar (c : Char) : Char :=
  match upperTable.lookup c with
  | some u => u
  | none => c

def pyLowerChar (c : Char) : Char :=
  match (upperTable.map (fun p => (p.2, p.1))).lookup c with
  | some l => l
  | none => c

def isWS (c : Char) : Bool := c.isWhitespace

/-- Remove trailing whitespace (the right half of Python `str.strip`). -/
def rdropWS : List Char → List Char
  | [] => []
  | c :: t =>
    match rdropWS t with
    | [] => if isWS c then [] else [c]
    | d :: r => c :: d :: r

/-- Python `str.strip` on the character list of a string. -/
def stripList (l : List Char) : List Char := rdropWS (l.dropWhile isWS)

/-- Python `s.strip().upper()` (the order used by `map_bairro_name`). -/
def normSU (s : String) : String := ⟨(stripList s.data).map pyUpperChar⟩

/-- Python `s.upper().strip()` (the order used by the dataframe filters, e.g.
`df['bairro'].str.upper().str.strip()`). -/
def normUS (s : String) : String := ⟨stripList (s.data.map pyUpperChar)⟩

/-! ## `map_bairro_name` (modules/mapping_utils.py, lines 18–165) -/

/-- The literal `mapping` dict of `map_bairro_name`, in source order (duplicated
keys are kept; they carry identical values, so first-match lookup agrees with
the Python dict, which keeps the last binding). -/
def mapping : List (String × String) :=
  [("CENTRO HISTÓRICO", "CENTRO HISTÓRICO"),
   ("CENTRO HISTORICO", "CENTRO HISTÓRICO"),
   ("CENTRO", "CENTRO HISTÓRICO"),
   ("CIDADE BAIXA", "CIDADE BAIXA"),
   ("FLORESTA", "FLORESTA"),
   ("AZENHA", "AZENHA"),
   ("PRAIA DE BELAS", "PRAIA DE BELAS"),
   ("MENINO DEUS", "MENINO DEUS"),
   ("SANTANA", "SANTANA"),
   ("RIO BRANCO", "RIO BRANCO"),
   ("BONFIM", "BONFIM"),
   ("NAVEGANTES", "NAVEGANTES"),
   ("HUMAITÁ", "HUMAITÁ"),
   ("FARRAPOS", "FARRAPOS"),
   ("SÃO GERALDO", "SÃO GERALDO"),
   ("SÃO JOSÉ", "VILA SÃO JOSÉ"),
   ("MARCÍLIO DIAS", "MARCÍLIO DIAS"),
   ("AUXILIADORA", "AUXILIADORA"),
   ("MOINHOS DE VENTO", "MOINHOS DE VENTO"),
   ("MONT SERRAT", "MONT SERRAT"),
   ("INDEPENDÊNCIA", "INDEPENDÊNCIA"),
   ("HIGIENÓPOLIS", "HIGIENÓPOLIS"),
   ("BOM FIM", "BOM FIM"),
   ("JARDIM BOTÂNICO", "JARDIM BOTÂNICO"),
   ("JARDIM BOTANICO", "JARDIM BOTÂNICO"),
   ("RIO BRANCO", "RIO BRANCO"),
   ("PETRÓPOLIS", "PETRÓPOLIS"),
   ("PETROPOLIS", "PETRÓPOLIS"),
   ("TRÊS FIGUEIRAS", "TRÊS FIGUEIRAS"),
   ("TRES FIGUEIRAS", "TRÊS FIGUEIRAS"),
   ("CHÁCARA DAS PEDRAS", "CHÁCARA DAS PEDRAS"),
   ("CHACARA DAS PEDRAS", "CHÁCARA DAS PEDRAS"),
   ("VILA MADALENA", "VILA MADALENA"),
   ("BELA VISTA", "BELA VISTA"),
   ("CAVALHADA", "CAVALHADA"),
   ("CRISTAL", "CRISTAL"),
   ("IPANEMA", "IPANEMA"),
   ("NONOAI", "NONOAI"),
   ("SERRARIA", "SERRARIA"),
   ("VILA NOVA", "VILA NOVA"),
   ("TERESÓPOLIS", "TERESÓPOLIS"),
   ("TERESOPOLIS", "TERESÓPOLIS"),
   ("PARTENON", "PARTENON"),
   ("LOMBA DO PINHEIRO", "LOMBA DO PINHEIRO"),
   ("RESTINGA", "RESTINGA"),
   ("BELÉM NOVO", "BELÉM NOVO"),
   ("BELEM NOVO", "BELÉM NOVO"),
   ("BELÉM VELHO", "BELÉM VELHO"),
   ("BELEM VELHO", "BELÉM VELHO"),
   ("GLORIA", "GLÓRIA"),
   ("GLÓRIA", "GLÓRIA"),
   ("CRUZEIRO", "CRUZEIRO"),
   ("SARANDI", "SARANDI"),
   ("RUBEM BERTA", "RUBEM BERTA"),
   ("ANCHIETA", "ANCHIETA"),
   ("BOA VISTA", "BOA VISTA"),
   ("MARIO QUINTANA", "MÁRIO QUINTANA"),
   ("MÁRIO QUINTANA", "MÁRIO QUINTANA"),
   ("PASSO DA AREIA", "PASSO DA AREIA"),
   ("VILA IPIRANGA", "VILA IPIRANGA"),
   ("JARDIM CARVALHO", "JARDIM CARVALHO"),
   ("JARDIM LINDÓIA", "JARDIM LINDÓIA"),
   ("JARDIM LINDOIA", "JARDIM LINDÓIA"),
   ("JARDIM SÃO PEDRO", "JARDIM SÃO PEDRO"),
   ("JARDIM SAO PEDRO", "JARDIM SÃO PEDRO"),
   ("LAMI", "LAMI"),
   ("ABERTA DOS MORROS", "ABERTA DOS MORROS"),
   ("AGRONOMIA", "AGRONOMIA"),
   ("ALTO PETRÓPOLIS", "ALTO PETRÓPOLIS"),
   ("ALTO PETROPOLIS", "ALTO PETRÓPOLIS"),
   ("ARQUIPÉLAGO", "ARQUIPÉLAGO"),
   ("ARQUIPELAGO", "ARQUIPÉLAGO"),
   ("ASSUNÇÃO", "ASSUNÇÃO"),
   ("ASSUNCAO", "ASSUNÇÃO"),
   ("CAMAQUÃ", "CAMAQUÃ"),
   ("CAMAQUA", "CAMAQUÃ"),
   ("CAMPO NOVO", "CAMPO NOVO"),
   ("CAPELA", "CAPELA"),
   ("CASCATA", "CASCATA"),
   ("CORONEL APARÍCIO BORGES", "CORONEL APARÍCIO BORGES"),
   ("CORONEL APARICIO BORGES", "CORONEL APARÍCIO BORGES"),
   ("ESPÍRITO SANTO", "ESPÍRITO SANTO"),
   ("ESPIRITO SANTO", "ESPÍRITO SANTO"),
   ("EXTREMA", "EXTREMA"),
   ("GUARUJÁ", "GUARUJÁ"),
   ("GUARUJA", "GUARUJÁ"),
   ("HÍPICA", "HÍPICA"),
   ("HIPICA", "HÍPICA"),
   ("ILHA DA PINTADA", "ILHA DA PINTADA"),
   ("ILHA DAS FLORES", "ILHA DAS FLORES"),
   ("ILHA DO PAVÃO", "ILHA DO PAVÃO"),
   ("ILHA DO PAVAO", "ILHA DO PAVÃO"),
   ("IPANEMA", "IPANEMA"),
   ("JARDIM EUROPA", "JARDIM EUROPA"),
   ("JARDIM FLORESTA", "JARDIM FLORESTA"),
   ("JARDIM ÍPIS", "JARDIM ÍPIS"),
   ("JARDIM IPIS", "JARDIM ÍPIS"),
   ("JARDIM PLANALTO", "JARDIM PLANALTO"),
   ("JARDIM SABARÁ", "JARDIM SABARÁ"),
   ("JARDIM SABARA", "JARDIM SABARÁ"),
   ("LAGEADO", "LAGEADO"),
   ("MEDIANEIRA", "MEDIANEIRA"),
   ("MORRO SANTANA", "MORRO SANTANA"),
   ("PASSO DAS PEDRAS", "PASSO DAS PEDRAS"),
   ("PEDRA REDONDA", "PEDRA REDONDA"),
   ("PONTA GROSSA", "PONTA GROSSA"),
   ("PROTÁSIO ALVES", "PROTÁSIO ALVES"),
   ("PROTASIO ALVES", "PROTÁSIO ALVES"),
   ("SANTA MARIA GORETTI", "SANTA MARIA GORETTI"),
   ("SANTA TEREZA", "SANTA TEREZA"),
   ("SANTA TERESA", "SANTA TEREZA"),
   ("SANTO ANTÔNIO", "SANTO ANTÔNIO"),
   ("SANTO ANTONIO", "SANTO ANTÔNIO"),
   ("SÃO JOÃO", "SÃO JOÃO"),
   ("SAO JOAO", "SÃO JOÃO"),
   ("SAO JOSE", "VILA SÃO JOSÉ"),
   ("SÃO SEBASTIÃO", "SÃO SEBASTIÃO"),
   ("SAO SEBASTIAO", "SÃO SEBASTIÃO"),
   ("SERAFINA CORRÊA", "SERAFINA CORRÊA"),
   ("SERAFINA CORREA", "SERAFINA CORRÊA"),
   ("TRISTEZA", "TRISTEZA"),
   ("VILA ASSUNÇÃO", "VILA ASSUNÇÃO"),
   ("VILA ASSUNCAO", "VILA ASSUNÇÃO"),
   ("VILA CONCEIÇÃO", "VILA CONCEIÇÃO"),
   ("VILA CONCEICAO", "VILA CONCEIÇÃO"),
   ("VILA JARDIM", "VILA JARDIM"),
   ("VILA JOÃO PESSOA", "VILA JOÃO PESSOA"),
   ("VILA JOAO PESSOA", "VILA JOÃO PESSOA")]

/-- `map_bairro_name` (mapping_utils.py:18-165).  An empty string models the
falsy/`NaN` inputs of the Python guard `if not bairro_name or pd.isna(...)`. -/
def map_bairro_name (s : String) : String :=
  if s = "" then "Desconhecido"
  else
    match mapping.lookup (normSU s) with
    | some v => v
    | none => normSU s

/-! ## The scoring core (security_analysis.py, lines 258–333)

`Agg` collects the per-neighborhood aggregates the synergistic analysis
extracts from the integrated dataframe (lines 197–217): `total_crimes`,
`total_operacoes`, `mortes_confronto`, `prisoes_realizadas`,
`apreensoes_armas`, `apreensoes_drogas` (kilograms, a float, hence `ℚ`) and
`operacoes_ativas`. -/

structure Agg where
  total_crimes : ℕ
  total_operacoes : ℕ
  mortes_confronto : ℕ
  prisoes_realizadas : ℕ
  apreensoes_armas : ℕ
  apreensoes_drogas : ℚ
  operacoes_ativas : ℕ
  deriving Repr, DecidableEq

/-- Lines 262–266: `penalidades`, the death penalty term (guarded by
`if mortes_confronto > 0`). -/
def penalidades (a : Agg) : ℚ :=
  if 0 < a.mortes_confronto then (a.mortes_confronto : ℚ) * 75 else 0

/-- Lines 269–285: `beneficios`, the sum of the four mitigation terms, each
guarded by a positivity test as in the source. -/
def beneficios (a : Agg) : ℚ :=
  (if 0 < a.prisoes_realizadas then (a.prisoes_realizadas : ℚ) * 3 else 0)
  + (if 0 < a.apreensoes_armas then (a.apreensoes_armas : ℚ) * 8 else 0)
  + (if 0 < a.apreensoes_drogas then a.apreensoes_drogas * 5 else 0)
  + (if 0 < a.operacoes_ativas then (a.operacoes_ativas : ℚ) * 2 else 0)

/-- Line 288: `score_bruto = score_base + penalidades - beneficios`. -/
def score_bruto (a : Agg) : ℚ := (a.total_crimes : ℚ) + penalidades a - beneficios a

/-- Lines 291–294: `fator_operacoes`. -/
def fator_operacoes (a : Agg) : ℚ :=
  if 0 < a.total_operacoes ∧ 0 < a.total_crimes then
    1 - min 0.5 ((a.total_operacoes : ℚ) / (a.total_crimes : ℚ))
  else 1

/-- Lines 296–299: `score_ajustado = max(0, score_bruto * fator_operacoes)`;
`score_final = score_ajustado`. -/
def score_final (a : Agg) : ℚ := max 0 (score_bruto a * fator_operacoes a)

/-- Lines 302–307: `efetividade_global`. -/
def efetividade_global (a : Agg) : ℚ :=
  if 0 < a.total_crimes then
    ((a.prisoes_realizadas : ℚ) / (a.total_crimes : ℚ) * 0.4
      + ((a.apreensoes_armas : ℚ) + a.apreensoes_drogas) / (a.total_crimes : ℚ) * 0.3
      + (a.operacoes_ativas : ℚ) / (a.total_crimes : ℚ) * 0.3) * 100
  else 0

/-- Lines 310–333: the risk-level classification chain. -/
def nivel_risco (s : ℚ) : String :=
  if 120 ≤ s then "⚫ Crítico"
  else if 80 ≤ s then "🔴 Muito Alto"
  else if 50 ≤ s then "🟠 Alto"
  else if 30 ≤ s then "🟡 Médio-Alto"
  else if 15 ≤ s then "🟡 Médio"
  else if 8 ≤ s then "🟢 Baixo-Médio"
  else if 3 ≤ s then "🟢 Baixo"
  else "🟢 Muito Baixo"

/-- Lines 310–333: the risk-color chain set by the same `if/elif` ladder. -/
def cor_risco (s : ℚ) : String :=
  if 120 ≤ s then "#2B0000"
  else if 80 ≤ s then "#8B0000"
  else if 50 ≤ s then "#FF0000"
  else if 30 ≤ s then "#FF4500"
  else if 15 ≤ s then "#FFA500"
  else if 8 ≤ s then "#FFD700"
  else if 3 ≤ s then "#FFFF00"
  else "#90EE90"

/-! ## Recommendations (lines 335–376)

The Python membership tests `'⚫' in nivel_risco` etc. are single-codepoint
substring tests, modelled by `List.contains` on the string's characters. -/

/-- Lines 338–360: the level-keyed boilerplate recommendations. -/
def recomendacoes_nivel (nivel : String) (mortes_confronto : ℕ) : List String :=
  if nivel.data.contains '⚫' || nivel.data.contains '🔴' then
    ["URGENT: Aumentar patrulhamento imediatamente",
     "Implementar operações preventivas intensivas",
     "Reforçar segurança pública e iluminação"]
    ++ (if 0 < mortes_confronto then ["Revisar protocolos de uso da força"] else [])
  else if nivel.data.contains '🟠' then
    ["Intensificar patrulhamento preventivo",
     "Implementar operações especiais focadas",
     "Monitorar pontos críticos identificados"]
  else if nivel.data.contains '🟡' then
    ["Manter vigilância regular",
     "Implementar ações comunitárias de segurança",
     "Focar em prevenção situacional"]
  else ["Manter ações preventivas atuais"]

/-- Lines 335–376: the full recommendation list; `roubo` is the value of the
test `'roubo' in str(padroes_crimes.get('tipos_predominantes', {})).lower()`
(line 369), computed from the records by `roubo_predominante` below. -/
def recomendacoes (a : Agg) (nivel : String) (efetividade : ℚ) (roubo : Bool) :
    List String :=
  recomendacoes_nivel nivel a.mortes_confronto
  ++ (if a.total_operacoes = 0 ∧ 5 < a.total_crimes then
        ["👮 Implementar operações policiais no bairro"] else [])
  ++ (if a.prisoes_realizadas = 0 ∧ 10 < a.total_crimes then
        ["🔒 Focar em operações com prisões efetivas"] else [])
  ++ (if a.apreensoes_armas = 0 ∧ roubo then
        ["🔫 Intensificar busca e apreensão de armas"] else [])
  ++ (if a.apreensoes_drogas = 0 ∧ 15 < a.total_crimes then
        ["💊 Investigar possível atividade de tráfico"] else [])
  ++ (if efetividade < 10 ∧ 20 < a.total_crimes then
        ["📈 Melhorar efetividade das operações atuais"] else [])

/-! ## Record-level embedding of `calculate_synergistic_security_analysis`

A row of the integrated crimes dataframe (all columns present, the intended
path of the guards `if '...' in crimes_bairro.columns`).  Timestamps are
modelled as integer day numbers (`pd.to_datetime` yields a totally ordered
time axis; only comparisons and 30/60-day offsets are used). -/

structure CrimeRecord where
  bairro : String
  tipo_crime : String
  data_registro : ℤ
  policiais_envolvidos : ℕ
  mortes_intervencao_policial : ℕ
  prisoes_realizadas : ℕ
  apreensoes_armas : ℕ
  apreensoes_drogas_kg : ℚ
  tipo_operacao : String
  periodo_dia : String
  deriving Repr, DecidableEq

structure OperationRecord where
  bairro : String
  data_operacao : ℤ
  deriving Repr, DecidableEq

/-- Line 192/195: `df['bairro'].str.upper().str.strip() == bairro.upper().strip()`. -/
def matchesBairro (bairro : String) (r : String) : Bool := normUS r == normUS bairro

/-- Lines 197–217: aggregate extraction from the matched rows. -/
def aggregateOf (ms : List CrimeRecord) : Agg where
  total_crimes := ms.length
  total_operacoes := (ms.map (fun r => r.policiais_envolvidos)).sum
  mortes_confronto := (ms.map (fun r => r.mortes_intervencao_policial)).sum
  prisoes_realizadas := (ms.map (fun r => r.prisoes_realizadas)).sum
  apreensoes_armas := (ms.map (fun r => r.apreensoes_armas)).sum
  apreensoes_drogas := (ms.map (fun r => r.apreensoes_drogas_kg)).sum
  operacoes_ativas := (ms.filter (fun r => r.tipo_operacao ≠ "Nenhuma")).length

/-! Pattern analysis (lines 250–256): `value_counts().head(3)` — occurrence
counts sorted descending (stable on first appearance), first three kept. -/

def countOcc (l : List String) (k : String) : ℕ := (l.filter (fun x => x == k)).length

def keysInOrder (l : List String) : List String :=
  l.foldl (fun acc x => if acc.contains x then acc else acc ++ [x]) []

/-- Stable descending insertion by count. -/
def insertDesc (p : String × ℕ) : List (String × ℕ) → List (String × ℕ)
  | [] => [p]
  | q :: t => if q.2 < p.2 then p :: q :: t else q :: insertDesc p t

def valueCounts (l : List String) : List (String × ℕ) :=
  ((keysInOrder l).map (fun k => (k, countOcc l k))).foldl
    (fun acc p => insertDesc p acc) []

def tipos_predominantes (ms : List CrimeRecord) : List (String × ℕ) :=
  (valueCounts (ms.map (fun r => r.tipo_crime))).take 3

/-- Substring containment on character lists (Python `needle in hay`). -/
def containsSub (hay needle : List Char) : Bool :=
  match hay with
  | [] => needle.isEmpty
  | _ :: t => needle.isPrefixOf hay || containsSub t needle

/-- Line 369: `'roubo' in str(padroes_crimes.get('tipos_predominantes', {})).lower()`.
The `str(...)` of the dict contains `'roubo'` exactly when some key of the
top-3 dict contains it (the separators `', '` / `': '` contain no letter). -/
def roubo_predominante (tp : List (String × ℕ)) : Bool :=
  tp.any (fun p => containsSub (p.1.data.map pyLowerChar) "roubo".data)

/-! Temporal analysis (lines 219–237). -/

def maxDate : List ℤ → ℤ
  | [] => 0
  | d :: t => t.foldl max d

/-- Lines 227–231: crimes in the 30 days up to the latest record. -/
def crimes_ultimo_mes (datas : List ℤ) : ℕ :=
  if datas.isEmpty then 0
  else (datas.filter (fun d => maxDate datas - 30 ≤ d)).length

/-- Lines 240–247: the qualitative operations-effectiveness label. -/
def efetividade_operacoes (total_operacoes total_crimes : ℕ) : String :=
  if 0 < total_operacoes ∧ 0 < total_crimes then
    if (0.3 : ℚ) ≤ (total_operacoes : ℚ) / (total_crimes : ℚ) then "Alta"
    else if (0.15 : ℚ) ≤ (total_operacoes : ℚ) / (total_crimes : ℚ) then "Média"
    else "Baixa"
  else "Não avaliável"

/-- The result dict (lines 412–434); display-only rounding and the HTML
`popup_content` are not modelled. -/
structure SynergisticResult where
  bairro : String
  total_crimes : ℕ
  total_operacoes : ℕ
  mortes_confronto : ℕ
  prisoes_realizadas : ℕ
  apreensoes_armas : ℕ
  apreensoes_drogas : ℚ
  operacoes_ativas : ℕ
  efetividade_global : ℚ
  score_sinergico : ℚ
  score_bruto : ℚ
  penalidades : ℚ
  beneficios : ℚ
  nivel_risco : String
  cor : String
  crimes_ultimo_mes : ℕ
  operacoes_ultimo_mes : ℕ
  tendencia_crimes : String
  efetividade_operacoes : String
  recomendacoes : List String
  fator_operacoes : ℚ
  deriving Repr, DecidableEq

/-- `calculate_synergistic_security_analysis` (security_analysis.py:180-434).
`analise_temporal['tendencia_crimes']` is initialized to `'Estável'` on line 223
and never reassigned, hence the constant field. -/
def calculate_synergistic_security_analysis (df_crimes : List CrimeRecord)
    (df_operacoes : List OperationRecord) (bairro : String) : SynergisticResult :=
  let ms := df_crimes.filter (fun r => matchesBairro bairro r.bairro)
  let ops := df_operacoes.filter (fun r => matchesBairro bairro r.bairro)
  let a := aggregateOf ms
  let efet := efetividade_global a
  let s := score_final a
  let nivel := nivel_risco s
  { bairro := bairro
    total_crimes := a.total_crimes
    total_operacoes := a.total_operacoes
    mortes_confronto := a.mortes_confronto
    prisoes_realizadas := a.prisoes_realizadas
    apreensoes_armas := a.apreensoes_armas
    apreensoes_drogas := a.apreensoes_drogas
    operacoes_ativas := a.operacoes_ativas
    efetividade_global := efet
    score_sinergico := s
    score_bruto := score_bruto a
    penalidades := penalidades a
    beneficios := beneficios a
    nivel_risco := nivel
    cor := cor_risco s
    crimes_ultimo_mes := crimes_ultimo_mes (ms.map (fun r => r.data_registro))
    operacoes_ultimo_mes := crimes_ultimo_mes (ops.map (fun r => r.data_operacao))
    tendencia_crimes := "Estável"
    efetividade_operacoes := efetividade_operacoes a.total_operacoes a.total_crimes
    recomendacoes := recomendacoes a nivel efet (roubo_predominante (tipos_predominantes ms))
    fator_operacoes := fator_operacoes a }

/-- Spec-side score formula for the refinement claim C1: the unconditional raw
combination, clamped non-negative FIRST and only then multiplied by the
operations-effectiveness factor (the source multiplies first and clamps
afterwards). -/
def score_spec_C1 (a : Agg) : ℚ :=
  if 0 < a.total_operacoes ∧ 0 < a.total_crimes then
    max 0 ((a.total_crimes : ℚ) + (a.mortes_confronto : ℚ) * 75
        - (a.prisoes_realizadas : ℚ) * 3 - (a.apreensoes_armas : ℚ) * 8
        - a.apreensoes_drogas * 5 - (a.operacoes_ativas : ℚ) * 2)
      * (1 - min 0.5 ((a.total_operacoes : ℚ) / (a.total_crimes : ℚ)))
  else
    max 0 ((a.total_crimes : ℚ) + (a.mortes_confronto : ℚ) * 75
        - (a.prisoes_realizadas : ℚ) * 3 - (a.apreensoes_armas : ℚ) * 8
        - a.apreensoes_drogas * 5 - (a.operacoes_ativas : ℚ) * 2)

/-! ## The trend logic of `calculate_risk_score` (lines 103–125)

`datas` are the `Data Registro` values of the neighborhood's rows (the modelled
path has the column present, so there is one date per row and
`len(df_bairro) = datas.length`). -/

def crimes_ultimos_30 (datas : List ℤ) : ℕ :=
  (datas.filter (fun d => maxDate datas - 30 ≤ d)).length

def crimes_30_anteriores (datas : List ℤ) : ℕ :=
  (datas.filter (fun d => maxDate datas - 60 ≤ d ∧ d < maxDate datas - 30)).length

def variacao (datas : List ℤ) : ℚ :=
  ((crimes_ultimos_30 datas : ℚ) - (crimes_30_anteriores datas : ℚ))
    / (crimes_30_anteriores datas : ℚ)

/-- Lines 103–125: `tendencia`, computed only when `len(df_bairro) > 10` and the
prior 30-day window is non-empty. -/
def tendencia (datas : List ℤ) : String :=
  if 10 < datas.length then
    if 0 < crimes_30_anteriores datas then
      if (0.2 : ℚ) < variacao datas then "Crescente"
      else if variacao datas < -(0.2 : ℚ) then "Decrescente"
      else "Estável"
    else "Estável"
  else "Estável"

/-! ## Helper lemmas about the scoring core -/

lemma if_pos_mul_nat (n : ℕ) (c : ℚ) : (if 0 < n then (n : ℚ) * c else 0) = (n : ℚ) * c := by
  split_ifs with h
  · rfl
  · have hn : n = 0 := by omega
    simp [hn]

lemma penalidades_eq (a : Agg) : penalidades a = (a.mortes_confronto : ℚ) * 75 :=
  if_pos_mul_nat _ _

lemma beneficios_eq (a : Agg) :
    beneficios a = (a.prisoes_realizadas : ℚ) * 3 + (a.apreensoes_armas : ℚ) * 8
      + (if 0 < a.apreensoes_drogas then a.apreensoes_drogas * 5 else 0)
      + (a.operacoes_ativas : ℚ) * 2 := by
  unfold beneficios
  rw [if_pos_mul_nat, if_pos_mul_nat, if_pos_mul_nat]

lemma drogas_if_eq {d : ℚ} (hd : 0 ≤ d) : (if 0 < d then d * 5 else 0) = d * 5 := by
  split_ifs with h
  · rfl
  · have hz : d = 0 := le_antisymm (not_lt.mp h) hd
    simp [hz]

lemma drogas_if_mono {x y : ℚ} (h : x ≤ y) :
    (if 0 < x then x * 5 else 0) ≤ (if 0 < y then y * 5 else 0) := by
  split_ifs <;> linarith

lemma fator_nonneg (a : Agg) : 0 ≤ fator_operacoes a := by
  unfold fator_operacoes
  split_ifs with h
  · have h1 : min (0.5 : ℚ) ((a.total_operacoes : ℚ) / (a.total_crimes : ℚ)) ≤ 0.5 :=
      min_le_left _ _
    linarith
  · norm_num

lemma score_final_mono (a b : Agg) (hf : fator_operacoes b = fator_operacoes a)
    (hb : score_bruto b ≤ score_bruto a) : score_final b ≤ score_final a := by
  unfold score_final
  rw [hf]
  exact max_le_max le_rfl (mul_le_mul_of_nonneg_right hb (fator_nonneg a))

/-! ## Claims C1, C2, C5, C6, C7 (scoring core) -/

/-- C1: for every aggregate the synergistic score equals the spec's
clamp-then-multiply formula (given the non-negative-kilograms data invariant),
and the returned score is always non-negative. -/
theorem claim_C1 : ∀ a : Agg,
    (0 ≤ a.apreensoes_drogas → score_final a = score_spec_C1 a) ∧ 0 ≤ score_final a := by
  intro a
  constructor
  · intro hd
    have hbruto : score_bruto a = (a.total_crimes : ℚ) + (a.mortes_confronto : ℚ) * 75
        - (a.prisoes_realizadas : ℚ) * 3 - (a.apreensoes_armas : ℚ) * 8
        - a.apreensoes_drogas * 5 - (a.operacoes_ativas : ℚ) * 2 := by
      rw [score_bruto, penalidades_eq, beneficios_eq, drogas_if_eq hd]
      ring
    unfold score_final score_spec_C1 fator_operacoes
    rw [← hbruto]
    split_ifs with h
    · have hm : min (0.5 : ℚ) ((a.total_operacoes : ℚ) / (a.total_crimes : ℚ)) ≤ 0.5 :=
        min_le_left _ _
      have hf : (0:ℚ) ≤ 1 - min (0.5 : ℚ) ((a.total_operacoes : ℚ) / (a.total_crimes : ℚ)) := by
        linarith
      rw [max_mul_of_nonneg _ _ hf, zero_mul]
    · rw [mul_one]
  · exact le_max_left _ _

/-- C1 witness at a concrete aggregate. -/
theorem claim_C1_witness :
    score_final (Agg.mk 50 20 0 15 5 0 0) = score_spec_C1 (Agg.mk 50 20 0 15 5 0 0) ∧
    0 ≤ score_final (Agg.mk 50 20 0 15 5 0 0) :=
  ⟨(claim_C1 (Agg.mk 50 20 0 15 5 0 0)).1 (by norm_num), (claim_C1 (Agg.mk 50 20 0 15 5 0 0)).2⟩

/-- C2: the discrete risk level is the first-match high-to-low threshold
classification — each of the eight labels is returned EXACTLY on its band
(a complete two-way characterization of the `if/elif` ladder of lines
310–333) — with the stated behaviour at all seven boundaries. -/
theorem claim_C2 :
    (∀ s : ℚ,
      (nivel_risco s = "⚫ Crítico" ↔ 120 ≤ s) ∧
      (nivel_risco s = "🔴 Muito Alto" ↔ 80 ≤ s ∧ s < 120) ∧
      (nivel_risco s = "🟠 Alto" ↔ 50 ≤ s ∧ s < 80) ∧
      (nivel_risco s = "🟡 Médio-Alto" ↔ 30 ≤ s ∧ s < 50) ∧
      (nivel_risco s = "🟡 Médio" ↔ 15 ≤ s ∧ s < 30) ∧
      (nivel_risco s = "🟢 Baixo-Médio" ↔ 8 ≤ s ∧ s < 15) ∧
      (nivel_risco s = "🟢 Baixo" ↔ 3 ≤ s ∧ s < 8) ∧
      (nivel_risco s = "🟢 Muito Baixo" ↔ s < 3)) ∧
    nivel_risco 120 = "⚫ Crítico" ∧ nivel_risco 119.99 = "🔴 Muito Alto" ∧
    nivel_risco 80 = "🔴 Muito Alto" ∧ nivel_risco 79.99 = "🟠 Alto" ∧
    nivel_risco 50 = "🟠 Alto" ∧ nivel_risco 49.99 = "🟡 Médio-Alto" ∧
    nivel_risco 30 = "🟡 Médio-Alto" ∧ nivel_risco 29.99 = "🟡 Médio" ∧
    nivel_risco 15 = "🟡 Médio" ∧ nivel_risco 14.99 = "🟢 Baixo-Médio" ∧
    nivel_risco 8 = "🟢 Baixo-Médio" ∧ nivel_risco 7.99 = "🟢 Baixo" ∧
    nivel_risco 3 = "🟢 Baixo" ∧ nivel_risco 2.99 = "🟢 Muito Baixo" := by
  constructor
  · intro s
    unfold nivel_risco
    split_ifs with h1 h2 h3 h4 h5 h6 h7 <;>
      refine ⟨?_, ?_, ?_, ?_, ?_, ?_, ?_, ?_⟩ <;> constructor <;> intro h <;>
        first
          | rfl
          | (exact absurd h (by decide))
          | (exact ⟨by linarith, by linarith⟩)
          | linarith
  · refine ⟨?_, ?_, ?_, ?_, ?_, ?_, ?_, ?_, ?_, ?_, ?_, ?_, ?_, ?_⟩ <;>
      norm_num [nivel_risco]

/-- C2 witness at concrete scores. -/
theorem claim_C2_witness :
    nivel_risco 130 = "⚫ Crítico" ∧ nivel_risco 100 = "🔴 Muito Alto" :=
  ⟨((claim_C2.1 130).1).mpr (by norm_num),
   ((claim_C2.1 100).2.1).mpr ⟨by norm_num, by norm_num⟩⟩

/-- C5: one more confrontation death never decreases the final score and adds
exactly 75 to the raw (pre-factor) score. -/
theorem claim_C5 : ∀ a : Agg,
    score_final a ≤ score_final { a with mortes_confronto := a.mortes_confronto + 1 } ∧
    score_bruto { a with mortes_confronto := a.mortes_confronto + 1 } = score_bruto a + 75 := by
  intro a
  have hb : score_bruto { a with mortes_confronto := a.mortes_confronto + 1 }
      = score_bruto a + 75 := by
    unfold score_bruto
    rw [penalidades_eq, penalidades_eq]
    have hben : beneficios { a with mortes_confronto := a.mortes_confronto + 1 }
        = beneficios a := rfl
    rw [hben]
    push_cast
    ring
  refine ⟨?_, hb⟩
  unfold score_final
  have hf : fator_operacoes { a with mortes_confronto := a.mortes_confronto + 1 }
      = fator_operacoes a := rfl
  rw [hf, hb]
  exact max_le_max le_rfl (mul_le_mul_of_nonneg_right (by linarith) (fator_nonneg a))

/-- C6: with `total_crimes` (and everything else) held fixed, increasing
arrests, weapon seizures or drug seizures never increases the final score. -/
theorem claim_C6 : ∀ (a : Agg) (k : ℕ) (d : ℚ), 0 ≤ d →
    score_final { a with prisoes_realizadas := a.prisoes_realizadas + k } ≤ score_final a ∧
    score_final { a with apreensoes_armas := a.apreensoes_armas + k } ≤ score_final a ∧
    score_final { a with apreensoes_drogas := a.apreensoes_drogas + d } ≤ score_final a := by
  intro a k d hd
  have hk : (0:ℚ) ≤ (k:ℚ) := by positivity
  refine ⟨score_final_mono _ _ rfl ?_, score_final_mono _ _ rfl ?_,
    score_final_mono _ _ rfl ?_⟩
  · unfold score_bruto
    have hp : penalidades { a with prisoes_realizadas := a.prisoes_realizadas + k }
        = penalidades a := rfl
    rw [hp, beneficios_eq, beneficios_eq]
    push_cast
    linarith
  · unfold score_bruto
    have hp : penalidades { a with apreensoes_armas := a.apreensoes_armas + k }
        = penalidades a := rfl
    rw [hp, beneficios_eq, beneficios_eq]
    push_cast
    linarith
  · unfold score_bruto
    have hp : penalidades { a with apreensoes_drogas := a.apreensoes_drogas + d }
        = penalidades a := rfl
    rw [hp, beneficios_eq, beneficios_eq]
    have hmono := drogas_if_mono (x := a.apreensoes_drogas)
      (y := a.apreensoes_drogas + d) (by linarith)
    linarith

/-- C6 witness at a concrete aggregate. -/
theorem claim_C6_witness :
    score_final (Agg.mk 50 0 0 5 0 0 0) ≤ score_final (Agg.mk 50 0 0 3 0 0 0) :=
  (claim_C6 (Agg.mk 50 0 0 3 0 0 0) 2 0 le_rfl).1

/-- C7: the effectiveness percentage is the stated weighted-ratio formula when
crimes exist, 0 otherwise, and it is not clamped above (it reaches 400 on one
crime with ten arrests). -/
theorem claim_C7 :
    (∀ a : Agg, 0 < a.total_crimes →
      efetividade_global a =
        ((a.prisoes_realizadas : ℚ) / (a.total_crimes : ℚ) * 0.4
          + ((a.apreensoes_armas : ℚ) + a.apreensoes_drogas) / (a.total_crimes : ℚ) * 0.3
          + (a.operacoes_ativas : ℚ) / (a.total_crimes : ℚ) * 0.3) * 100) ∧
    (∀ a : Agg, a.total_crimes = 0 → efetividade_global a = 0) ∧
    100 < efetividade_global (Agg.mk 1 0 0 10 0 0 0) := by
  refine ⟨?_, ?_, ?_⟩
  · intro a h
    rw [efetividade_global, if_pos h]
  · intro a h
    rw [efetividade_global, if_neg (by omega)]
  · norm_num [efetividade_global]

/-- C7 witness: the formula evaluated at the over-100 aggregate. -/
theorem claim_C7_witness : efetividade_global (Agg.mk 1 0 0 10 0 0 0) = 400 := by
  rw [claim_C7.1 (Agg.mk 1 0 0 10 0 0 0) (by norm_num)]
  norm_num

/-! ## Claims C3, C9, C10 (full synergistic analysis) -/

lemma recomendacoes_nivel_ne_nil (nivel : String) (m : ℕ) :
    recomendacoes_nivel nivel m ≠ [] := by
  unfold recomendacoes_nivel
  split_ifs <;> simp

lemma recomendacoes_ne_nil (a : Agg) (nivel : String) (efetividade : ℚ) (roubo : Bool) :
    recomendacoes a nivel efetividade roubo ≠ [] := by
  unfold recomendacoes
  intro h
  rw [List.append_eq_nil, List.append_eq_nil, List.append_eq_nil, List.append_eq_nil,
    List.append_eq_nil] at h
  exact recomendacoes_nivel_ne_nil nivel a.mortes_confronto h.1.1.1.1.1

/-- C9 (implicit): the temporal-analysis trend field of the synergistic
analysis is the constant `'Estável'`; the 30-vs-30-day comparison is never
performed on this code path. -/
theorem claim_C9 : ∀ (df_crimes : List CrimeRecord) (df_operacoes : List OperationRecord)
    (bairro : String),
    (calculate_synergistic_security_analysis df_crimes df_operacoes bairro).tendencia_crimes
      = "Estável" :=
  fun _ _ _ => rfl

/-- C10 (implicit): the recommendations list of the synergistic analysis is
never empty — every risk level contributes at least one recommendation. -/
theorem claim_C10 : ∀ (df_crimes : List CrimeRecord) (df_operacoes : List OperationRecord)
    (bairro : String),
    (calculate_synergistic_security_analysis df_crimes df_operacoes bairro).recomendacoes
      ≠ [] :=
  fun _ _ _ => recomendacoes_ne_nil _ _ _ _

/-- C3: whenever the aggregate has no crimes (empty collections or an unmatched
neighborhood), the analysis returns the well-formed zero assessment: score 0,
level `'🟢 Muito Baixo'`, effectiveness 0, trend `'Estável'` and the single
maintenance recommendation (and, being a total function, it never fails). -/
theorem claim_C3 : ∀ (df_crimes : List CrimeRecord) (df_operacoes : List OperationRecord)
    (bairro : String),
    (calculate_synergistic_security_analysis df_crimes df_operacoes bairro).total_crimes = 0 →
    (calculate_synergistic_security_analysis df_crimes df_operacoes bairro).score_sinergico = 0 ∧
    (calculate_synergistic_security_analysis df_crimes df_operacoes bairro).nivel_risco
      = "🟢 Muito Baixo" ∧
    (calculate_synergistic_security_analysis df_crimes df_operacoes bairro).efetividade_global
      = 0 ∧
    (calculate_synergistic_security_analysis df_crimes df_operacoes bairro).tendencia_crimes
      = "Estável" ∧
    (calculate_synergistic_security_analysis df_crimes df_operacoes bairro).recomendacoes
      = ["Manter ações preventivas atuais"] := by
  intro df_crimes df_operacoes bairro h
  have hms : df_crimes.filter (fun r => matchesBairro bairro r.bairro) = [] :=
    List.length_eq_zero.mp h
  have hscore : score_final (aggregateOf
      (df_crimes.filter (fun r => matchesBairro bairro r.bairro))) = 0 := by
    rw [hms]
    norm_num [aggregateOf, score_final, score_bruto, penalidades, beneficios, fator_operacoes]
  refine ⟨hscore, ?_, ?_, rfl, ?_⟩
  · show nivel_risco (score_final (aggregateOf
      (df_crimes.filter (fun r => matchesBairro bairro r.bairro)))) = "🟢 Muito Baixo"
    rw [hscore]
    norm_num [nivel_risco]
  · show efetividade_global (aggregateOf
      (df_crimes.filter (fun r => matchesBairro bairro r.bairro))) = 0
    rw [hms]
    norm_num [aggregateOf, efetividade_global]
  · show recomendacoes
      (aggregateOf (df_crimes.filter (fun r => matchesBairro bairro r.bairro)))
      (nivel_risco (score_final
        (aggregateOf (df_crimes.filter (fun r => matchesBairro bairro r.bairro)))))
      (efetividade_global
        (aggregateOf (df_crimes.filter (fun r => matchesBairro bairro r.bairro))))
      (roubo_predominante (tipos_predominantes
        (df_crimes.filter (fun r => matchesBairro bairro r.bairro))))
      = ["Manter ações preventivas atuais"]
    rw [hms]
    norm_num [aggregateOf, recomendacoes, recomendacoes_nivel, efetividade_global,
      score_final, score_bruto, penalidades, beneficios, fator_operacoes, nivel_risco,
      tipos_predominantes, roubo_predominante, valueCounts, keysInOrder, List.filter]
    decide

/-- C3 witness: the empty-data instance. -/
theorem claim_C3_witness :
    (calculate_synergistic_security_analysis [] [] "CENTRO").score_sinergico = 0 ∧
    (calculate_synergistic_security_analysis [] [] "CENTRO").nivel_risco = "🟢 Muito Baixo" ∧
    (calculate_synergistic_security_analysis [] [] "CENTRO").efetividade_global = 0 ∧
    (calculate_synergistic_security_analysis [] [] "CENTRO").tendencia_crimes = "Estável" ∧
    (calculate_synergistic_security_analysis [] [] "CENTRO").recomendacoes
      = ["Manter ações preventivas atuais"] :=
  claim_C3 [] [] "CENTRO" rfl

/-! ## Claim C4 (trend logic of `calculate_risk_score`) -/

/-- C4 counterexample: a neighborhood with exactly 10 incident records — which
is NOT "fewer than 10" — whose prior window is non-empty and whose change ratio
exceeds +20%, so under the claim the trend would be computed and be
`'Crescente'`; the source nonetheless skips the computation (condition is
`len(df_bairro) > 10`) and reports `'Estável'`. -/
theorem claim_C4_counterexample :
    ([0, 0, 0, 40, 40, 40, 40, 40, 40, 40] : List ℤ).length = 10 ∧
    0 < crimes_30_anteriores [0, 0, 0, 40, 40, 40, 40, 40, 40, 40] ∧
    (0.2 : ℚ) < variacao [0, 0, 0, 40, 40, 40, 40, 40, 40, 40] ∧
    tendencia [0, 0, 0, 40, 40, 40, 40, 40, 40, 40] = "Estável" ∧
    "Estável" ≠ "Crescente" := by
  have h1 : crimes_ultimos_30 [0, 0, 0, 40, 40, 40, 40, 40, 40, 40] = 7 := by decide
  have h2 : crimes_30_anteriores [0, 0, 0, 40, 40, 40, 40, 40, 40, 40] = 3 := by decide
  refine ⟨by decide, by decide, ?_, by decide, by decide⟩
  rw [variacao, h1, h2]
  norm_num

/-- C4 amended: the trend is `'Crescente'`/`'Decrescente'` exactly on a change
ratio strictly above +20% / strictly below −20% (so exactly +20% is not
Rising), `'Estável'` when the prior window is empty, and the comparison is
skipped — returning `'Estável'` — whenever the neighborhood has 10 OR FEWER
incident records (the source requires strictly more than 10, not "fewer than
10 skips"). -/
theorem claim_C4_amended : ∀ datas : List ℤ,
    (datas.length ≤ 10 → tendencia datas = "Estável") ∧
    (crimes_30_anteriores datas = 0 → tendencia datas = "Estável") ∧
    (10 < datas.length → 0 < crimes_30_anteriores datas →
      (0.2 : ℚ) < variacao datas → tendencia datas = "Crescente") ∧
    (10 < datas.length → 0 < crimes_30_anteriores datas →
      variacao datas < -(0.2 : ℚ) → tendencia datas = "Decrescente") ∧
    (10 < datas.length → 0 < crimes_30_anteriores datas →
      -(0.2 : ℚ) ≤ variacao datas → variacao datas ≤ (0.2 : ℚ) →
      tendencia datas = "Estável") ∧
    (variacao datas = (0.2 : ℚ) → tendencia datas ≠ "Crescente") := by
  intro datas
  unfold tendencia
  split_ifs with h1 h2 h3 h4 <;>
    refine ⟨?_, ?_, ?_, ?_, ?_, ?_⟩ <;> intros <;>
      first
        | rfl
        | (exfalso; omega)
        | (exfalso; linarith)
        | decide

/-- C4 amended witness: with 11 records and a +166% change the trend is
computed and is `'Crescente'`. -/
theorem claim_C4_amended_witness :
    tendencia [0, 0, 0, 40, 40, 40, 40, 40, 40, 40, 40] = "Crescente" := by
  have h1 : crimes_ultimos_30 [0, 0, 0, 40, 40, 40, 40, 40, 40, 40, 40] = 8 := by decide
  have h2 : crimes_30_anteriores [0, 0, 0, 40, 40, 40, 40, 40, 40, 40, 40] = 3 := by decide
  exact (claim_C4_amended [0, 0, 0, 40, 40, 40, 40, 40, 40, 40, 40]).2.2.1 (by decide)
    (by decide) (by rw [variacao, h1, h2]; norm_num)

/-! ## Claim C8 (normalization of neighborhood names)

Helper lemmas about `lookup`, `pyUpperChar` and `stripList`. -/

lemma list_lookup_mem {α β : Type} [BEq α] [LawfulBEq α] :
    ∀ {l : List (α × β)} {k : α} {v : β}, l.lookup k = some v → (k, v) ∈ l := by
  intro l
  induction l with
  | nil => intro k v h; simp [List.lookup] at h
  | cons p t ih =>
    intro k v h
    obtain ⟨k', v'⟩ := p
    rw [List.lookup] at h
    split at h
    · next heq =>
      have hk : k = k' := eq_of_beq heq
      cases h
      subst hk
      exact List.mem_cons_self _ _
    · exact List.mem_cons_of_mem _ (ih h)

lemma upperTable_not_ws : ∀ p ∈ upperTable, isWS p.1 = false ∧ isWS p.2 = false := by
  decide

lemma upperTable_values_not_keys : ∀ p ∈ upperTable, upperTable.lookup p.2 = none := by
  decide

lemma isWS_pyUpperChar (c : Char) : isWS (pyUpperChar c) = isWS c := by
  unfold pyUpperChar
  cases h : upperTable.lookup c with
  | none => rfl
  | some u =>
    have hm := upperTable_not_ws _ (list_lookup_mem h)
    rw [hm.1, hm.2]

lemma pyUpperChar_idem (c : Char) : pyUpperChar (pyUpperChar c) = pyUpperChar c := by
  cases h : upperTable.lookup c with
  | none =>
    have hc : pyUpperChar c = c := by unfold pyUpperChar; rw [h]
    rw [hc]
    exact hc
  | some u =>
    have hc : pyUpperChar c = u := by unfold pyUpperChar; rw [h]
    have hu : upperTable.lookup u = none := upperTable_values_not_keys _ (list_lookup_mem h)
    rw [hc]
    unfold pyUpperChar
    rw [hu]

lemma map_up_idem (l : List Char) :
    (l.map pyUpperChar).map pyUpperChar = l.map pyUpperChar := by
  induction l with
  | nil => rfl
  | cons c t ih => simp [pyUpperChar_idem, ih]

lemma rdropWS_cons_nil {t : List Char} (c : Char) (h : rdropWS t = []) :
    rdropWS (c :: t) = if isWS c then [] else [c] := by
  simp only [rdropWS, h]

lemma rdropWS_cons_cons {t : List Char} {d : Char} {r : List Char} (c : Char)
    (h : rdropWS t = d :: r) : rdropWS (c :: t) = c :: d :: r := by
  simp only [rdropWS, h]

lemma dropWhile_ws_idem (l : List Char) :
    (l.dropWhile isWS).dropWhile isWS = l.dropWhile isWS := by
  induction l with
  | nil => rfl
  | cons c t ih =>
    rw [List.dropWhile_cons]
    split_ifs with h
    · exact ih
    · rw [List.dropWhile_cons, if_neg h]

lemma rdropWS_idem (l : List Char) : rdropWS (rdropWS l) = rdropWS l := by
  induction l with
  | nil => rfl
  | cons c t ih =>
    cases h : rdropWS t with
    | nil =>
      rw [rdropWS_cons_nil c h]
      split_ifs with hc
      · rfl
      · rw [rdropWS_cons_nil c (rfl : rdropWS ([] : List Char) = []), if_neg hc]
    | cons d r =>
      rw [h] at ih
      rw [rdropWS_cons_cons c h]
      exact rdropWS_cons_cons c ih

lemma dropWhile_rdropWS_eq_self {l : List Char} (h : l.dropWhile isWS = l) :
    (rdropWS l).dropWhile isWS = rdropWS l := by
  cases l with
  | nil => rfl
  | cons c t =>
    have hc : ¬ isWS c = true := by
      have hh := List.dropWhile_eq_self_iff.mp h (by simp)
      simpa using hh
    cases h2 : rdropWS t with
    | nil =>
      rw [rdropWS_cons_nil c h2, if_neg hc, List.dropWhile_cons, if_neg hc]
    | cons d r =>
      rw [rdropWS_cons_cons c h2, List.dropWhile_cons, if_neg hc]

lemma stripList_idem (l : List Char) : stripList (stripList l) = stripList l := by
  unfold stripList
  rw [dropWhile_rdropWS_eq_self (dropWhile_ws_idem l), rdropWS_idem]

lemma dropWhile_ws_map_up (l : List Char) :
    (l.map pyUpperChar).dropWhile isWS = (l.dropWhile isWS).map pyUpperChar := by
  induction l with
  | nil => rfl
  | cons c t ih =>
    by_cases hc : isWS c = true
    · rw [List.map_cons, List.dropWhile_cons, List.dropWhile_cons, isWS_pyUpperChar,
        if_pos hc, if_pos hc]
      exact ih
    · rw [List.map_cons, List.dropWhile_cons, List.dropWhile_cons, isWS_pyUpperChar,
        if_neg hc, if_neg hc, List.map_cons]

lemma rdropWS_map_up (l : List Char) :
    rdropWS (l.map pyUpperChar) = (rdropWS l).map pyUpperChar := by
  induction l with
  | nil => rfl
  | cons c t ih =>
    cases h : rdropWS t with
    | nil =>
      have hm : rdropWS (t.map pyUpperChar) = [] := by rw [ih, h]; rfl
      rw [List.map_cons, rdropWS_cons_nil _ hm, rdropWS_cons_nil c h, isWS_pyUpperChar]
      split_ifs <;> rfl
    | cons d r =>
      have hm : rdropWS (t.map pyUpperChar) = pyUpperChar d :: r.map pyUpperChar := by
        rw [ih, h]; rfl
      rw [List.map_cons, rdropWS_cons_cons _ hm, rdropWS_cons_cons c h]
      rfl

lemma stripList_map_up (l : List Char) :
    stripList (l.map pyUpperChar) = (stripList l).map pyUpperChar := by
  unfold stripList
  rw [dropWhile_ws_map_up, rdropWS_map_up]

lemma normSU_data (s : String) : (normSU s).data = (stripList s.data).map pyUpperChar := rfl

lemma normSU_normSU (s : String) : normSU (normSU s) = normSU s := by
  apply String.ext
  show (stripList ((stripList s.data).map pyUpperChar)).map pyUpperChar
    = (stripList s.data).map pyUpperChar
  rw [stripList_map_up, stripList_idem]
  exact map_up_idem _

set_option maxRecDepth 8000 in
lemma mapping_values_fixed : ∀ p ∈ mapping, map_bairro_name p.2 = p.2 := by decide

set_option maxRecDepth 8000 in
lemma mapping_keys_canonical : ∀ p ∈ mapping, map_bairro_name p.1 = p.2 := by decide

/-- C8 counterexample: normalization is NOT idempotent on every input — the
empty (missing) name maps to the sentinel `'Desconhecido'`, whose own
normalization is `'DESCONHECIDO'`. -/
theorem claim_C8_counterexample :
    map_bairro_name "" = "Desconhecido" ∧
    map_bairro_name (map_bairro_name "") = "DESCONHECIDO" ∧
    "DESCONHECIDO" ≠ "Desconhecido" := by
  refine ⟨rfl, ?_, by decide⟩
  decide

/-- C8 amended: normalization is idempotent on every input whose stripped form
is non-empty (i.e. every actual name; only the empty/whitespace inputs routed
to the `'Desconhecido'` sentinel escape), and every alias spelling in the
table normalizes to its canonical value (so all aliases of a canonical name
agree). -/
theorem claim_C8_amended :
    (∀ x : String, stripList x.data ≠ [] →
      map_bairro_name (map_bairro_name x) = map_bairro_name x) ∧
    (∀ p ∈ mapping, map_bairro_name p.1 = p.2) := by
  constructor
  · intro x hx
    have hxe : x ≠ "" := by
      intro h
      apply hx
      rw [h]
      rfl
    cases hl : mapping.lookup (normSU x) with
    | some v =>
      have hmx : map_bairro_name x = v := by
        unfold map_bairro_name
        rw [if_neg hxe, hl]
      rw [hmx]
      exact mapping_values_fixed _ (list_lookup_mem hl)
    | none =>
      have hmx : map_bairro_name x = normSU x := by
        unfold map_bairro_name
        rw [if_neg hxe, hl]
      rw [hmx]
      have hkne : normSU x ≠ "" := by
        intro hc
        apply hx
        have hd := congrArg String.data hc
        rw [normSU_data] at hd
        exact List.map_eq_nil_iff.mp hd
      unfold map_bairro_name
      rw [if_neg hkne, normSU_normSU, hl]
  · exact mapping_keys_canonical

/-- C8 amended witness at concrete names. -/
theorem claim_C8_amended_witness :
    map_bairro_name (map_bairro_name "Centro") = map_bairro_name "Centro" ∧
    map_bairro_name "CENTRO HISTORICO" = "CENTRO HISTÓRICO" :=
  ⟨claim_C8_amended.1 "Centro" (by decide),
   claim_C8_amended.2 ("CENTRO HISTORICO", "CENTRO HISTÓRICO") (by decide)⟩

end AlertaPOA
